import Mathlib

/-!
Verification of the shaping layer in
lms/djangoapps/program_enrollments/rest_api/v1/serializers.py.

The file declares Django REST Framework serializers.  We embed, shallowly:
  * the error-report shape (field name mapped to a list of detail records
    carrying a message and a machine-readable code);
  * inbound validation of the field kinds the file uses (CharField with
    allow_blank=False, UUIDField, ChoiceField), and the serializer loop
    that validates each declared field independently, storing validated
    values under the declared source key and errors under the field name;
  * outbound rendering: each declared field either reads an attribute of
    the source object or calls a per-field method; attributes that are
    absent on the source are skipped when the field is optional
    (required=False) and abort rendering when it is required.

Raw inbound payload values are modelled as strings, which covers every
field kind the claims exercise.
-/

set_option autoImplicit false

/-- A single validation error: human message plus machine-readable code,
mirroring rest_framework.exceptions.ErrorDetail. -/
structure ErrorDetail where
  message : String
  code : String
  deriving Repr, DecidableEq

/-- The error report of a serializer: field name mapped to the list of
errors recorded on that field (a Python dict, keys unique). -/
abbrev ErrorReport := List (String × List ErrorDetail)

/-- dict.get(field, []) on an error report. -/
def errorsGet (errors : ErrorReport) (field : String) : List ErrorDetail :=
  match errors.find? (fun p => p.1 == field) with
  | some p => p.2
  | none => []

/-- InvalidStatusMixin.has_invalid_status: scan the errors recorded on the
"status" field and report whether one of them has code "invalid_choice". -/
def has_invalid_status (errors : ErrorReport) : Bool :=
  (errorsGet errors "status").any (fun e => e.code == "invalid_choice")

/-- The validation rule of a declared inbound field, as configured in
serializers.py: CharField(allow_blank=...), UUIDField(), or
ChoiceField(allow_blank=..., choices=...). -/
inductive FieldRule where
  | char (allowBlank : Bool)
  | uuidRule
  | choice (allowBlank : Bool) (choices : List String)
  deriving Repr, DecidableEq

def requiredError : ErrorDetail :=
  ⟨"This field is required.", "required"⟩

def blankError : ErrorDetail :=
  ⟨"This field may not be blank.", "blank"⟩

def invalidUuidError : ErrorDetail :=
  ⟨"Must be a valid UUID.", "invalid"⟩

def invalidChoiceError (input : String) : ErrorDetail :=
  ⟨"\"" ++ input ++ "\" is not a valid choice.", "invalid_choice"⟩

def isHexDig (c : Char) : Bool :=
  c.isDigit || (Char.ofNat 97 ≤ c && c ≤ Char.ofNat 102)
    || (Char.ofNat 65 ≤ c && c ≤ Char.ofNat 70)

def isBraceChar (c : Char) : Bool :=
  c == Char.ofNat 123 || c == Char.ofNat 125

/-- Python str.strip applied to the two brace characters. -/
def stripBraces (s : String) : String :=
  String.mk (((s.toList.dropWhile isBraceChar).reverse.dropWhile isBraceChar).reverse)

/-- Python str.strip(): drop leading and trailing whitespace. -/
def pyStrip (s : String) : String :=
  String.mk (((s.toList.dropWhile Char.isWhitespace).reverse.dropWhile
    Char.isWhitespace).reverse)

/-- The normalisation uuid.UUID(hex=s) performs before checking for 32 hex
digits: drop urn:/uuid: markers, strip surrounding braces, drop hyphens. -/
def uuidHex (s : String) : Option String :=
  let h := ((stripBraces ((s.replace "urn:" "").replace "uuid:" "")).replace "-" "")
  if h.length == 32 && h.toList.all isHexDig then some h.toLower else none

/-- Canonical 8-4-4-4-12 rendering of a 32-hex-digit string. -/
def formatUuid (h : String) : String :=
  let l := h.toList
  String.mk (l.take 8) ++ "-" ++ String.mk ((l.drop 8).take 4) ++ "-"
    ++ String.mk ((l.drop 12).take 4) ++ "-" ++ String.mk ((l.drop 16).take 4)
    ++ "-" ++ String.mk (l.drop 20)

/-- Validation of one present raw string value against a field rule.
CharField: a value that is empty after stripping whitespace fails with a
blank error unless allow_blank, otherwise the stripped value is kept
(trim_whitespace defaults to true).  UUIDField: parse, fail with an
invalid error.  ChoiceField: empty string passes only under allow_blank;
any value outside the choices fails with an invalid_choice error. -/
def runFieldRule (rule : FieldRule) (s : String) : Except ErrorDetail String :=
  match rule with
  | .char allowBlank =>
      if pyStrip s = "" then
        if allowBlank then .ok "" else .error blankError
      else .ok (pyStrip s)
  | .uuidRule =>
      match uuidHex s with
      | some h => .ok (formatUuid h)
      | none => .error invalidUuidError
  | .choice allowBlank choices =>
      if s = "" && allowBlank then .ok ""
      else if choices.contains s then .ok s
      else .error (invalidChoiceError s)

/-- Field.run_validation: a missing value on a required field (all inbound
fields here are required) yields a required error; otherwise validate the
present value. -/
def runField (rule : FieldRule) (v : Option String) : Except ErrorDetail String :=
  match v with
  | none => .error requiredError
  | some s => runFieldRule rule s

/-- First-match lookup in a raw payload, i.e. data.get(field_name). -/
def lookupStr (d : List (String × String)) (k : String) : Option String :=
  (d.find? (fun p => p.1 == k)).map Prod.snd

/-- One declared inbound field: its wire name, its source key (where the
validated value is stored), and its validation rule. -/
structure FieldSpec where
  fieldName : String
  source : String
  rule : FieldRule
  deriving Repr, DecidableEq

/-- Serializer.to_internal_value: validate every declared field
independently; collect validated values keyed by source and errors keyed
by field name, in declaration order. -/
def runSerializer (fields : List FieldSpec) (d : List (String × String)) :
    List (String × String) × ErrorReport :=
  match fields with
  | [] => ([], [])
  | f :: rest =>
      let tail := runSerializer rest d
      match runField f.rule (lookupStr d f.fieldName) with
      | .ok v => ((f.source, v) :: tail.1, tail.2)
      | .error e => (tail.1, (f.fieldName, [e]) :: tail.2)

/-- Outcome of is_valid(): on success the validated data is exposed and
the error report is empty; on failure only the error report is exposed. -/
structure ValidationResult where
  validated_data : List (String × String)
  errors : ErrorReport
  deriving Repr, DecidableEq

def isValid (fields : List FieldSpec) (d : List (String × String)) : ValidationResult :=
  if (runSerializer fields d).2.isEmpty then ⟨(runSerializer fields d).1, []⟩
  else ⟨[], (runSerializer fields d).2⟩

/-- Fields shared by all program enrollment request serializers:
student_key = CharField(allow_blank=False, source="external_user_key"),
status = CharField(allow_blank=False). -/
def ProgramEnrollmentRequestMixin.fields : List FieldSpec :=
  [⟨"student_key", "external_user_key", .char false⟩,
   ⟨"status", "status", .char false⟩]

/-- ProgramEnrollmentCreateRequestSerializer adds
curriculum_uuid = UUIDField() after the mixin fields. -/
def ProgramEnrollmentCreateRequestSerializer.fields : List FieldSpec :=
  ProgramEnrollmentRequestMixin.fields ++
    [⟨"curriculum_uuid", "curriculum_uuid", .uuidRule⟩]

/-- ProgramEnrollmentUpdateRequestSerializer declares nothing beyond the
mixin. -/
def ProgramEnrollmentUpdateRequestSerializer.fields : List FieldSpec :=
  ProgramEnrollmentRequestMixin.fields

/-- ProgramCourseEnrollmentRequestSerializer declares the same two fields
directly. -/
def ProgramCourseEnrollmentRequestSerializer.fields : List FieldSpec :=
  [⟨"student_key", "external_user_key", .char false⟩,
   ⟨"status", "status", .char false⟩]

/-- Modelled from the spec: the constants module referenced by
serializers.py (CourseRunProgressStatuses, in
lms/djangoapps/program_enrollments/rest_api/v1/constants.py) is not in the
provided source; the spec fixes the in_progress value. -/
def CourseRunProgressStatuses.IN_PROGRESS : String := "in_progress"

/-- Modelled from the spec: the upcoming value of the missing
CourseRunProgressStatuses constants module. -/
def CourseRunProgressStatuses.UPCOMING : String := "upcoming"

/-- Modelled from the spec: the completed value of the missing
CourseRunProgressStatuses constants module. -/
def CourseRunProgressStatuses.COMPLETED : String := "completed"

/-- CourseRunOverviewSerializer.STATUS_CHOICES. -/
def CourseRunOverviewSerializer.STATUS_CHOICES : List String :=
  [CourseRunProgressStatuses.IN_PROGRESS,
   CourseRunProgressStatuses.UPCOMING,
   CourseRunProgressStatuses.COMPLETED]

/-- course_run_status = ChoiceField(allow_blank=False, choices=STATUS_CHOICES). -/
def CourseRunOverviewSerializer.course_run_status_rule : FieldRule :=
  .choice false CourseRunOverviewSerializer.STATUS_CHOICES

/-! Outbound rendering. -/

/-- A rendered wire value. -/
inductive Value where
  | str : String → Value
  | bool : Bool → Value
  | num : Rat → Value
  deriving Repr, DecidableEq

/-- One declared outbound field over a source type: its wire name, its
required flag, and its accessor.  The accessor returns none exactly when
reading the attribute raises AttributeError on the source object
(SerializerMethodField accessors are total). -/
structure OutField (α : Type) where
  name : String
  required : Bool
  get : α → Option Value

/-- Serializer.to_representation: render the declared fields in order.  A
field whose attribute is absent is skipped when the field is not required
and aborts rendering (unhandled exception) when it is. -/
def toRepresentation {α : Type} (fields : List (OutField α)) (x : α) :
    Option (List (String × Value)) :=
  match fields with
  | [] => some []
  | f :: rest =>
      match f.get x, toRepresentation rest x with
      | some v, some r => some ((f.name, v) :: r)
      | none, some r => if f.required then none else some r
      | _, none => none

/-- A ProgramEnrollment record, with the attributes serializers.py reads:
the external user key, the status, the optionally linked user account, and
the curriculum uuid (kept as its string rendering). -/
structure ProgramEnrollment where
  external_user_key : String
  status : String
  user : Option String
  curriculum_uuid : String

/-- A ProgramCourseEnrollment record: its parent program enrollment and
its status. -/
structure ProgramCourseEnrollment where
  program_enrollment : ProgramEnrollment
  status : String

/-- A grade-result source object for ProgramCourseGradeSerializer
(BaseProgramCourseGrade).  Every such object carries the course
enrollment; the Ok variant populates passed/percent/letter_grade and the
Error variant populates error — none means the attribute is absent on the
object. -/
structure GradeSource where
  program_course_enrollment : ProgramCourseEnrollment
  passed : Option Bool
  percent : Option Rat
  letter_grade : Option String
  error : Option String

/-- ProgramEnrollmentSerializer.get_account_exists: bool(obj.user). -/
def ProgramEnrollmentSerializer.get_account_exists (obj : ProgramEnrollment) : Bool :=
  obj.user.isSome

/-- ProgramCourseEnrollmentSerializer.get_student_key. -/
def ProgramCourseEnrollmentSerializer.get_student_key
    (obj : ProgramCourseEnrollment) : String :=
  obj.program_enrollment.external_user_key

/-- ProgramCourseEnrollmentSerializer.get_account_exists:
bool(obj.program_enrollment.user). -/
def ProgramCourseEnrollmentSerializer.get_account_exists
    (obj : ProgramCourseEnrollment) : Bool :=
  obj.program_enrollment.user.isSome

/-- ProgramCourseEnrollmentSerializer.get_curriculum_uuid:
text_type(obj.program_enrollment.curriculum_uuid). -/
def ProgramCourseEnrollmentSerializer.get_curriculum_uuid
    (obj : ProgramCourseEnrollment) : String :=
  obj.program_enrollment.curriculum_uuid

/-- ProgramCourseGradeSerializer.get_student_key: traverse
program_course_enrollment, then program_enrollment, then read the
external user key. -/
def ProgramCourseGradeSerializer.get_student_key (obj : GradeSource) : String :=
  obj.program_course_enrollment.program_enrollment.external_user_key

/-- Outbound fields of ProgramEnrollmentSerializer, in declaration order.
student_key reads the external_user_key attribute; account_exists is a
SerializerMethodField. -/
def ProgramEnrollmentSerializer.fields : List (OutField ProgramEnrollment) :=
  [⟨"student_key", true, fun o => some (.str o.external_user_key)⟩,
   ⟨"status", true, fun o => some (.str o.status)⟩,
   ⟨"account_exists", false,
     fun o => some (.bool (ProgramEnrollmentSerializer.get_account_exists o))⟩,
   ⟨"curriculum_uuid", true, fun o => some (.str o.curriculum_uuid)⟩]

/-- Outbound fields of ProgramCourseEnrollmentSerializer, in declaration
order; three of the four are SerializerMethodFields. -/
def ProgramCourseEnrollmentSerializer.fields :
    List (OutField ProgramCourseEnrollment) :=
  [⟨"student_key", false,
     fun o => some (.str (ProgramCourseEnrollmentSerializer.get_student_key o))⟩,
   ⟨"status", true, fun o => some (.str o.status)⟩,
   ⟨"account_exists", false,
     fun o => some (.bool (ProgramCourseEnrollmentSerializer.get_account_exists o))⟩,
   ⟨"curriculum_uuid", false,
     fun o => some (.str (ProgramCourseEnrollmentSerializer.get_curriculum_uuid o))⟩]

/-- Outbound fields of ProgramCourseGradeSerializer, in declaration
order: the required student_key method field, then the four optional
(required=False) fields, each reading its attribute directly. -/
def ProgramCourseGradeSerializer.fields : List (OutField GradeSource) :=
  [⟨"student_key", false,
     fun o => some (.str (ProgramCourseGradeSerializer.get_student_key o))⟩,
   ⟨"passed", false, fun o => o.passed.map Value.bool⟩,
   ⟨"percent", false, fun o => o.percent.map Value.num⟩,
   ⟨"letter_grade", false, fun o => o.letter_grade.map Value.str⟩,
   ⟨"error", false, fun o => o.error.map Value.str⟩]

/-! Helper lemmas. -/

theorem runField_blank :
    runField (.char false) (some "") = .error blankError := rfl

theorem blank_field_mem (fields : List FieldSpec) (d : List (String × String))
    (f : FieldSpec) (hf : f ∈ fields) (hr : f.rule = .char false)
    (hv : lookupStr d f.fieldName = some "") :
    (f.fieldName, [blankError]) ∈ (runSerializer fields d).2 := by
  induction fields with
  | nil => simp at hf
  | cons g rest ih =>
    rcases List.mem_cons.mp hf with h | h
    · subst h
      simp only [runSerializer, hv, hr, runField_blank]
      exact List.mem_cons_self _ _
    · have hmem := ih h
      simp only [runSerializer]
      cases hrun : runField g.rule (lookupStr d g.fieldName) with
      | ok v => simpa using hmem
      | error e => simpa using Or.inr hmem

theorem isValid_errors_of_mem (fields : List FieldSpec) (d : List (String × String))
    (e : String × List ErrorDetail) (he : e ∈ (runSerializer fields d).2) :
    (isValid fields d).errors = (runSerializer fields d).2 := by
  cases h : (runSerializer fields d).2 with
  | nil => rw [h] at he; simp at he
  | cons a l => simp [isValid, h]

theorem programEnrollment_repr (obj : ProgramEnrollment) :
    toRepresentation ProgramEnrollmentSerializer.fields obj =
      some [("student_key", .str obj.external_user_key),
            ("status", .str obj.status),
            ("account_exists", .bool obj.user.isSome),
            ("curriculum_uuid", .str obj.curriculum_uuid)] := rfl

theorem programCourseEnrollment_repr (obj : ProgramCourseEnrollment) :
    toRepresentation ProgramCourseEnrollmentSerializer.fields obj =
      some [("student_key", .str obj.program_enrollment.external_user_key),
            ("status", .str obj.status),
            ("account_exists", .bool obj.program_enrollment.user.isSome),
            ("curriculum_uuid", .str obj.program_enrollment.curriculum_uuid)] := rfl

theorem toRepresentation_keys_subset {α : Type} (fields : List (OutField α)) (x : α)
    (out : List (String × Value)) (h : toRepresentation fields x = some out) :
    ∀ k ∈ out.map Prod.fst, k ∈ fields.map OutField.name := by
  induction fields generalizing out with
  | nil =>
    simp only [toRepresentation, Option.some.injEq] at h
    subst h
    simp
  | cons f rest ih =>
    simp only [toRepresentation] at h
    cases hg : f.get x with
    | some v =>
      rw [hg] at h
      cases hr : toRepresentation rest x with
      | none => rw [hr] at h; simp at h
      | some r =>
        rw [hr] at h
        simp only [Option.some.injEq] at h
        subst h
        intro k hk
        simp only [List.map_cons, List.mem_cons] at hk ⊢
        rcases hk with hk | hk
        · exact Or.inl hk
        · exact Or.inr (ih r hr k hk)
    | none =>
      rw [hg] at h
      cases hr : toRepresentation rest x with
      | none => rw [hr] at h; simp at h
      | some r =>
        rw [hr] at h
        by_cases hreq : f.required
        · simp [hreq] at h
        · simp only [hreq, if_false, Option.some.injEq, Bool.false_eq_true] at h
          subst h
          intro k hk
          simp only [List.map_cons, List.mem_cons]
          exact Or.inr (ih _ hr k hk)

/-! Claim theorems. -/

/-- Claim C1: has_invalid_status returns true iff the error list recorded
under the status field contains at least one error whose code is
invalid_choice; errors with that code on other fields, or with other codes
on status, yield false. -/
theorem has_invalid_status_correct (errors : ErrorReport) :
    has_invalid_status errors = true ↔
      ∃ e ∈ errorsGet errors "status", e.code = "invalid_choice" := by
  simp [has_invalid_status, List.any_eq_true]

/-- Claim C2: inbound shaping of student_key abc with status
invalid_status_value by the enrollment request serializers succeeds with
no recorded error (status is an unconstrained non-blank string at this
layer), the validated data keeps both values, and has_invalid_status on
the resulting error report is false. -/
theorem unconstrained_status_accepted :
    (isValid ProgramEnrollmentUpdateRequestSerializer.fields
        [("student_key", "abc"), ("status", "invalid_status_value")]).errors = [] ∧
    (isValid ProgramCourseEnrollmentRequestSerializer.fields
        [("student_key", "abc"), ("status", "invalid_status_value")]).errors = [] ∧
    (isValid ProgramCourseEnrollmentRequestSerializer.fields
        [("student_key", "abc"), ("status", "invalid_status_value")]).validated_data
      = [("external_user_key", "abc"), ("status", "invalid_status_value")] ∧
    has_invalid_status
      (isValid ProgramEnrollmentUpdateRequestSerializer.fields
        [("student_key", "abc"), ("status", "invalid_status_value")]).errors = false ∧
    has_invalid_status
      (isValid ProgramCourseEnrollmentRequestSerializer.fields
        [("student_key", "abc"), ("status", "invalid_status_value")]).errors = false := by
  decide

/-- Claim C3: both outbound enrollment shapers emit account_exists true
exactly when the underlying record has a linked user (obj.user for
program enrollments, obj.program_enrollment.user for course enrollments),
and false otherwise. -/
theorem account_exists_iff_linked_user :
    (∀ obj : ProgramEnrollment,
      ("account_exists", Value.bool true) ∈
          (toRepresentation ProgramEnrollmentSerializer.fields obj).getD [] ↔
        obj.user ≠ none) ∧
    (∀ obj : ProgramCourseEnrollment,
      ("account_exists", Value.bool true) ∈
          (toRepresentation ProgramCourseEnrollmentSerializer.fields obj).getD [] ↔
        obj.program_enrollment.user ≠ none) := by
  constructor
  · intro obj
    rw [programEnrollment_repr]
    cases h : obj.user <;> simp [h]
  · intro obj
    rw [programCourseEnrollment_repr]
    cases h : obj.program_enrollment.user <;> simp [h]

/-- Claim C4: on an Ok-variant grade source with passed true, percent
0.95, letter_grade A and no error attribute, the grade shaper emits
exactly student_key, passed, percent and letter_grade, omitting error,
with student_key obtained by traversing course-enrollment then
program-enrollment to the external key. -/
theorem grade_ok_variant_repr (pce : ProgramCourseEnrollment) :
    toRepresentation ProgramCourseGradeSerializer.fields
        ⟨pce, some true, some (0.95 : Rat), some "A", none⟩
      = some [("student_key", .str pce.program_enrollment.external_user_key),
              ("passed", .bool true),
              ("percent", .num (0.95 : Rat)),
              ("letter_grade", .str "A")] := rfl

/-- Claim C5: on an Error-variant grade source (error populated, grade
attributes absent) the grade shaper emits exactly error and student_key,
omitting passed, percent and letter_grade. -/
theorem grade_error_variant_repr (pce : ProgramCourseEnrollment) (msg : String) :
    toRepresentation ProgramCourseGradeSerializer.fields
        ⟨pce, none, none, none, some msg⟩
      = some [("student_key", .str pce.program_enrollment.external_user_key),
              ("error", .str msg)] := rfl

/-- Claim C9: the grade shaper enforces no variant exclusivity: when the
grade attributes and the error attribute are simultaneously populated,
every populated field is emitted together. -/
theorem grade_no_variant_exclusivity (pce : ProgramCourseEnrollment)
    (b : Bool) (q : Rat) (lg err : String) :
    toRepresentation ProgramCourseGradeSerializer.fields
        ⟨pce, some b, some q, some lg, some err⟩
      = some [("student_key", .str pce.program_enrollment.external_user_key),
              ("passed", .bool b), ("percent", .num q),
              ("letter_grade", .str lg), ("error", .str err)] := rfl

/-- Claim C6: every enrollment request serializer rejects an inbound
mapping whose student_key is the empty string, recording a blank-value
error on student_key; an empty-string status is rejected the same way. -/
theorem blank_student_key_rejected (d : List (String × String)) :
    (lookupStr d "student_key" = some "" →
      ("student_key", [blankError]) ∈
          (isValid ProgramEnrollmentCreateRequestSerializer.fields d).errors ∧
      ("student_key", [blankError]) ∈
          (isValid ProgramEnrollmentUpdateRequestSerializer.fields d).errors ∧
      ("student_key", [blankError]) ∈
          (isValid ProgramCourseEnrollmentRequestSerializer.fields d).errors) ∧
    (lookupStr d "status" = some "" →
      ("status", [blankError]) ∈
          (isValid ProgramEnrollmentCreateRequestSerializer.fields d).errors ∧
      ("status", [blankError]) ∈
          (isValid ProgramEnrollmentUpdateRequestSerializer.fields d).errors ∧
      ("status", [blankError]) ∈
          (isValid ProgramCourseEnrollmentRequestSerializer.fields d).errors) := by
  constructor
  · intro hv
    refine ⟨?_, ?_, ?_⟩
    · have hm := blank_field_mem ProgramEnrollmentCreateRequestSerializer.fields d
        ⟨"student_key", "external_user_key", .char false⟩ (by decide) rfl hv
      rw [isValid_errors_of_mem _ _ _ hm]; exact hm
    · have hm := blank_field_mem ProgramEnrollmentUpdateRequestSerializer.fields d
        ⟨"student_key", "external_user_key", .char false⟩ (by decide) rfl hv
      rw [isValid_errors_of_mem _ _ _ hm]; exact hm
    · have hm := blank_field_mem ProgramCourseEnrollmentRequestSerializer.fields d
        ⟨"student_key", "external_user_key", .char false⟩ (by decide) rfl hv
      rw [isValid_errors_of_mem _ _ _ hm]; exact hm
  · intro hv
    refine ⟨?_, ?_, ?_⟩
    · have hm := blank_field_mem ProgramEnrollmentCreateRequestSerializer.fields d
        ⟨"status", "status", .char false⟩ (by decide) rfl hv
      rw [isValid_errors_of_mem _ _ _ hm]; exact hm
    · have hm := blank_field_mem ProgramEnrollmentUpdateRequestSerializer.fields d
        ⟨"status", "status", .char false⟩ (by decide) rfl hv
      rw [isValid_errors_of_mem _ _ _ hm]; exact hm
    · have hm := blank_field_mem ProgramCourseEnrollmentRequestSerializer.fields d
        ⟨"status", "status", .char false⟩ (by decide) rfl hv
      rw [isValid_errors_of_mem _ _ _ hm]; exact hm

theorem blank_student_key_rejected_witness :
    ("student_key", [blankError]) ∈
        (isValid ProgramCourseEnrollmentRequestSerializer.fields
          [("student_key", ""), ("status", "enrolled")]).errors ∧
    ("status", [blankError]) ∈
        (isValid ProgramCourseEnrollmentRequestSerializer.fields
          [("student_key", "x"), ("status", "")]).errors :=
  ⟨((blank_student_key_rejected
      [("student_key", ""), ("status", "enrolled")]).1 (by decide)).2.2,
   ((blank_student_key_rejected
      [("student_key", "x"), ("status", "")]).2 (by decide)).2.2⟩

/-- Claim C7: inbound validation of course_run_status accepts exactly
in_progress, upcoming and completed; any other value, the empty string
included, fails with an error whose code is invalid_choice. -/
theorem course_run_status_choices (s : String) :
    (runField CourseRunOverviewSerializer.course_run_status_rule (some s)
        = .ok s ↔ s = "in_progress" ∨ s = "upcoming" ∨ s = "completed") ∧
    (¬(s = "in_progress" ∨ s = "upcoming" ∨ s = "completed") →
      runField CourseRunOverviewSerializer.course_run_status_rule (some s)
          = .error (invalidChoiceError s) ∧
        (invalidChoiceError s).code = "invalid_choice") := by
  have hmem : s ∈ CourseRunOverviewSerializer.STATUS_CHOICES ↔
      s = "in_progress" ∨ s = "upcoming" ∨ s = "completed" := by
    simp [CourseRunOverviewSerializer.STATUS_CHOICES,
      CourseRunProgressStatuses.IN_PROGRESS, CourseRunProgressStatuses.UPCOMING,
      CourseRunProgressStatuses.COMPLETED]
  by_cases h : s = "in_progress" ∨ s = "upcoming" ∨ s = "completed"
  · refine ⟨⟨fun _ => h, fun _ => ?_⟩, fun hn => absurd h hn⟩
    simp [runField, runFieldRule, CourseRunOverviewSerializer.course_run_status_rule,
      hmem.mpr h]
  · have hnm : s ∉ CourseRunOverviewSerializer.STATUS_CHOICES :=
      fun hin => h (hmem.mp hin)
    refine ⟨⟨fun heq => ?_, fun hs => absurd hs h⟩, fun _ => ⟨?_, rfl⟩⟩
    · simp [runField, runFieldRule, CourseRunOverviewSerializer.course_run_status_rule,
        hnm] at heq
    · simp [runField, runFieldRule, CourseRunOverviewSerializer.course_run_status_rule,
        hnm]

theorem course_run_status_choices_witness :
    runField CourseRunOverviewSerializer.course_run_status_rule (some "")
        = .error (invalidChoiceError "") ∧
      (invalidChoiceError "").code = "invalid_choice" :=
  (course_run_status_choices "").2 (by decide)

/-- Claim C8: in every outbound shaping, a declared optional
(required=False) field whose attribute is unpopulated on the source is
entirely absent from the emitted mapping, and every populated declared
field appears with its value. -/
theorem optional_field_omission {α : Type} (fields : List (OutField α)) (x : α)
    (out : List (String × Value)) (f : OutField α)
    (hnodup : (fields.map OutField.name).Nodup)
    (hout : toRepresentation fields x = some out) (hf : f ∈ fields) :
    (f.required = false → f.get x = none → f.name ∉ out.map Prod.fst) ∧
    (∀ v, f.get x = some v → (f.name, v) ∈ out) := by
  induction fields generalizing out with
  | nil => simp at hf
  | cons g rest ih =>
    simp only [List.map_cons, List.nodup_cons] at hnodup
    simp only [toRepresentation] at hout
    cases hg : g.get x with
    | some v =>
      rw [hg] at hout
      cases hr : toRepresentation rest x with
      | none => rw [hr] at hout; simp at hout
      | some r =>
        rw [hr] at hout
        simp only [Option.some.injEq] at hout
        subst hout
        rcases List.mem_cons.mp hf with hfg | hfr
        · subst hfg
          constructor
          · intro _ hget; rw [hget] at hg; exact absurd hg (by simp)
          · intro v' hv'; rw [hv'] at hg
            simp only [Option.some.injEq] at hg
            subst hg
            exact List.mem_cons_self _ _
        · have hne : f.name ≠ g.name := by
            intro he
            exact hnodup.1 (he ▸ List.mem_map_of_mem OutField.name hfr)
          have hih := ih r hnodup.2 hr hfr
          constructor
          · intro hreq hget
            simp only [List.map_cons, List.mem_cons]
            rintro (he | hm)
            · exact hne he
            · exact hih.1 hreq hget hm
          · intro v' hv'
            exact List.mem_cons_of_mem _ (hih.2 v' hv')
    | none =>
      rw [hg] at hout
      cases hr : toRepresentation rest x with
      | none => rw [hr] at hout; simp at hout
      | some r =>
        rw [hr] at hout
        by_cases hreqg : g.required
        · simp [hreqg] at hout
        · simp only [hreqg, if_false, Option.some.injEq, Bool.false_eq_true] at hout
          subst hout
          rcases List.mem_cons.mp hf with hfg | hfr
          · subst hfg
            constructor
            · intro _ _ hin
              exact hnodup.1 (toRepresentation_keys_subset rest x _ hr f.name hin)
            · intro v' hv'; rw [hv'] at hg; exact absurd hg (by simp)
          · exact ih _ hnodup.2 hr hfr

theorem optional_field_omission_witness :
    "error" ∉ ([("student_key", Value.str "sk1"), ("passed", Value.bool true),
        ("percent", Value.num (0.95 : Rat)),
        ("letter_grade", Value.str "A")].map Prod.fst) ∧
    ("passed", Value.bool true) ∈
      [("student_key", Value.str "sk1"), ("passed", Value.bool true),
        ("percent", Value.num (0.95 : Rat)), ("letter_grade", Value.str "A")] := by
  have h := optional_field_omission ProgramCourseGradeSerializer.fields
    ⟨⟨⟨"sk1", "active", some "user1", "cur1"⟩, "active"⟩,
      some true, some (0.95 : Rat), some "A", none⟩
    [("student_key", Value.str "sk1"), ("passed", Value.bool true),
      ("percent", Value.num (0.95 : Rat)), ("letter_grade", Value.str "A")]
    ⟨"error", false, fun o => o.error.map Value.str⟩
    (by decide) rfl
    (List.mem_cons_of_mem _ (List.mem_cons_of_mem _ (List.mem_cons_of_mem _
      (List.mem_cons_of_mem _ (List.mem_cons_self _ _)))))
  have h2 := optional_field_omission ProgramCourseGradeSerializer.fields
    ⟨⟨⟨"sk1", "active", some "user1", "cur1"⟩, "active"⟩,
      some true, some (0.95 : Rat), some "A", none⟩
    [("student_key", Value.str "sk1"), ("passed", Value.bool true),
      ("percent", Value.num (0.95 : Rat)), ("letter_grade", Value.str "A")]
    ⟨"passed", false, fun o => o.passed.map Value.bool⟩
    (by decide) rfl
    (List.mem_cons_of_mem _ (List.mem_cons_self _ _))
  exact ⟨h.1 rfl rfl, h2.2 (Value.bool true) rfl⟩

/-- Claim C10: a valid inbound enrollment request stores the student_key
value in the validated mapping under the declared source key
external_user_key, never under student_key; and the outbound
program-enrollment shaper reads the external_user_key attribute and emits
it under the wire name student_key. -/
theorem student_key_source_renaming :
    (∀ (d : List (String × String)) (sk st : String),
      lookupStr d "student_key" = some sk → lookupStr d "status" = some st →
      pyStrip sk ≠ "" → pyStrip st ≠ "" →
      (isValid ProgramEnrollmentUpdateRequestSerializer.fields d).validated_data
          = [("external_user_key", pyStrip sk), ("status", pyStrip st)] ∧
      (isValid ProgramCourseEnrollmentRequestSerializer.fields d).validated_data
          = [("external_user_key", pyStrip sk), ("status", pyStrip st)] ∧
      lookupStr
        (isValid ProgramCourseEnrollmentRequestSerializer.fields d).validated_data
        "student_key" = none) ∧
    (∀ obj : ProgramEnrollment,
      ("student_key", Value.str obj.external_user_key) ∈
        (toRepresentation ProgramEnrollmentSerializer.fields obj).getD []) := by
  constructor
  · intro d sk st hsk hst hskb hstb
    have h1 : runField (.char false) (some sk) = .ok (pyStrip sk) := by
      simp [runField, runFieldRule, hskb]
    have h2 : runField (.char false) (some st) = .ok (pyStrip st) := by
      simp [runField, runFieldRule, hstb]
    have hrun :
        runSerializer ProgramCourseEnrollmentRequestSerializer.fields d
          = ([("external_user_key", pyStrip sk), ("status", pyStrip st)], []) := by
      simp only [ProgramCourseEnrollmentRequestSerializer.fields, runSerializer,
        hsk, hst, h1, h2]
    have hrun2 :
        runSerializer ProgramEnrollmentUpdateRequestSerializer.fields d
          = ([("external_user_key", pyStrip sk), ("status", pyStrip st)], []) := by
      simp only [ProgramEnrollmentUpdateRequestSerializer.fields,
        ProgramEnrollmentRequestMixin.fields, runSerializer, hsk, hst, h1, h2]
    refine ⟨?_, ?_, ?_⟩
    · simp [isValid, hrun2]
    · simp [isValid, hrun]
    · simp only [isValid, hrun]
      rfl
  · intro obj
    rw [programEnrollment_repr]
    exact List.mem_cons_self _ _

theorem student_key_source_renaming_witness :
    (isValid ProgramCourseEnrollmentRequestSerializer.fields
        [("student_key", "abc"), ("status", "enrolled")]).validated_data
      = [("external_user_key", "abc"), ("status", "enrolled")] := by
  have h := (student_key_source_renaming.1
    [("student_key", "abc"), ("status", "enrolled")] "abc" "enrolled"
    rfl rfl (by decide) (by decide)).2.1
  exact h
